import Mathlib

/-!
Verification of the request-path dataplane of the openrouter-middleware
repository, embedded shallowly in Lean 4.

Conventions of the embedding:
* Wall-clock instants (`datetime.utcnow()` in the source) are integers
  counting seconds; `timedelta(seconds=n)` comparisons become integer
  comparisons.  Every function of the source that reads the clock takes an
  explicit `now : Int` argument.
* Python `float` arithmetic on health scores and weights is embedded as
  exact rational (`Rat`) arithmetic; all concrete inputs used below keep it
  exact in the source too.
* Redis hash records for upstream keys are embedded as the parsed, typed
  records that the source itself reconstructs on every read
  (`OpenRouterKeyData` in app/models/keys.py); the store is an association
  list fingerprint to record plus the membership list of the set
  `openrouter:active`.
* Fallible paths (exceptions caught by the pervasive try/except blocks)
  are embedded explicitly where they decide behaviour.
-/

namespace ORMW

/-! ## Circuit breaker (src/app/services/rotation.py, class CircuitBreaker) -/

/-- States of the circuit breaker, `CircuitState` in rotation.py
(`closed`, `open`, `half_open`). -/
inductive CircuitState where
  | closed
  | opened
  | halfOpen
  deriving DecidableEq

/-- In-memory per-key breaker, `CircuitBreaker.__init__` in rotation.py.
Field defaults are the constructor defaults of the source. -/
structure CircuitBreaker where
  failureThreshold : Int := 5
  recoveryTimeout : Int := 60
  failureCount : Int := 0
  lastFailureTime : Option Int := none
  state : CircuitState := .closed
  halfOpenCalls : Int := 0
  maxHalfOpenCalls : Int := 3
  deriving DecidableEq

/-- A breaker fresh out of `CircuitBreaker()` with all constructor defaults. -/
def CircuitBreaker.init : CircuitBreaker := {}

/-- `CircuitBreaker.can_execute` in rotation.py.  It both answers and may
mutate the breaker (open to half-open transition), so the embedding returns
the answer together with the updated breaker.  In the open state the source
requires `datetime.utcnow() - self.last_failure_time >
timedelta(seconds=self.recovery_timeout)` (strict), and treats a missing
`last_failure_time` as not recoverable. -/
def CircuitBreaker.canExecute (cb : CircuitBreaker) (now : Int) :
    Bool × CircuitBreaker :=
  match cb.state with
  | .closed => (true, cb)
  | .opened =>
    match cb.lastFailureTime with
    | some t =>
      if now - t > cb.recoveryTimeout then
        (true, { cb with state := .halfOpen, halfOpenCalls := 0 })
      else
        (false, cb)
    | none => (false, cb)
  | .halfOpen => (decide (cb.halfOpenCalls < cb.maxHalfOpenCalls), cb)

/-- `CircuitBreaker.on_success` in rotation.py: half-open goes to closed,
and the failure counter, last-failure time and half-open counter are
cleared in every state. -/
def CircuitBreaker.onSuccess (cb : CircuitBreaker) : CircuitBreaker :=
  let cb := if cb.state = .halfOpen then { cb with state := .closed } else cb
  { cb with failureCount := 0, lastFailureTime := none, halfOpenCalls := 0 }

/-- `CircuitBreaker.on_failure` in rotation.py. -/
def CircuitBreaker.onFailure (cb : CircuitBreaker) (now : Int) : CircuitBreaker :=
  let cb := { cb with failureCount := cb.failureCount + 1,
                      lastFailureTime := some now }
  if cb.state = .halfOpen then
    { cb with state := .opened, halfOpenCalls := 0 }
  else if cb.failureCount ≥ cb.failureThreshold then
    { cb with state := .opened }
  else
    cb

/-- `CircuitBreaker.on_call_attempt` in rotation.py: counts a probe only in
the half-open state. -/
def CircuitBreaker.onCallAttempt (cb : CircuitBreaker) : CircuitBreaker :=
  if cb.state = .halfOpen then
    { cb with halfOpenCalls := cb.halfOpenCalls + 1 }
  else
    cb

/-- Operations that touch a breaker without reporting a failure: a success
report, a probe count, or a `can_execute` query at some instant. -/
inductive BreakerEvent where
  | success
  | callAttempt
  | query (now : Int)

/-- Effect of one non-failure event on the breaker state. -/
def applyEvent (cb : CircuitBreaker) : BreakerEvent → CircuitBreaker
  | .success => cb.onSuccess
  | .callAttempt => cb.onCallAttempt
  | .query now => (cb.canExecute now).2

/-- Effect of a sequence of non-failure events. -/
def applyEvents (cb : CircuitBreaker) (es : List BreakerEvent) : CircuitBreaker :=
  es.foldl applyEvent cb

/-- An open breaker with no recorded last-failure time stays in that
configuration under every non-failure event, and denies execution there. -/
theorem open_noLastFailure_invariant (es : List BreakerEvent)
    (cb : CircuitBreaker) (hs : cb.state = .opened)
    (hl : cb.lastFailureTime = none) :
    (applyEvents cb es).state = .opened ∧
      (applyEvents cb es).lastFailureTime = none := by
  induction es generalizing cb with
  | nil => exact ⟨hs, hl⟩
  | cons e rest ih =>
    have h2 : (applyEvent cb e).state = .opened ∧
        (applyEvent cb e).lastFailureTime = none := by
      cases e with
      | success =>
        constructor <;> simp [applyEvent, CircuitBreaker.onSuccess, hs, hl]
      | callAttempt =>
        constructor <;> simp [applyEvent, CircuitBreaker.onCallAttempt, hs, hl]
      | query now =>
        constructor <;> simp [applyEvent, CircuitBreaker.canExecute, hs, hl]
    exact ih (applyEvent cb e) h2.1 h2.2

/-- C3: while open, `can_execute` answers true only when at least the
recovery timeout has elapsed since the recorded last failure (the source in
fact requires strictly more), and then the breaker has moved to half-open
with the probe counter reset; while half-open, once the probe counter has
reached `max_half_open_calls` the answer is false.  The constructor
defaults are 60 seconds and 3 probes. -/
theorem claim_C3 (cb : CircuitBreaker) (now : Int) :
    (cb.state = .opened →
      (cb.canExecute now).1 = true →
        ∃ t, cb.lastFailureTime = some t ∧ now - t ≥ cb.recoveryTimeout ∧
          (cb.canExecute now).2.state = .halfOpen ∧
          (cb.canExecute now).2.halfOpenCalls = 0) ∧
    (cb.state = .halfOpen → cb.halfOpenCalls ≥ cb.maxHalfOpenCalls →
      (cb.canExecute now).1 = false) ∧
    CircuitBreaker.init.recoveryTimeout = 60 ∧
    CircuitBreaker.init.maxHalfOpenCalls = 3 := by
  refine ⟨?_, ?_, rfl, rfl⟩
  · intro hs htrue
    rcases hl : cb.lastFailureTime with _ | t
    · simp [CircuitBreaker.canExecute, hs, hl] at htrue
    · have hgt : now - t > cb.recoveryTimeout := by
        by_contra hng
        simp [CircuitBreaker.canExecute, hs, hl, hng] at htrue
      refine ⟨t, rfl, le_of_lt hgt, ?_, ?_⟩ <;>
        simp [CircuitBreaker.canExecute, hs, hl, hgt]
  · intro hs hge
    simp [CircuitBreaker.canExecute, hs]
    omega

/-- A concrete breaker that tripped open at instant 0, for the C3 witness. -/
def trippedBreaker : CircuitBreaker :=
  { CircuitBreaker.init with
      state := .opened
      failureCount := 5
      lastFailureTime := some 0 }

/-- Witness for C3 at a concrete breaker: open since instant 0 with the
default 60-second timeout, queried at instant 61. -/
theorem claim_C3_witness :
    ∃ t, trippedBreaker.lastFailureTime = some t ∧
      (61 : Int) - t ≥ trippedBreaker.recoveryTimeout ∧
      (trippedBreaker.canExecute 61).2.state = .halfOpen ∧
      (trippedBreaker.canExecute 61).2.halfOpenCalls = 0 :=
  (claim_C3 trippedBreaker 61).1 (by decide) (by decide)

/-- C9: calling `on_success` on an open breaker leaves it open while
clearing the failure counter and the last-failure timestamp; from then on,
under any sequence of success reports, probe counts and `can_execute`
queries (anything except a new failure report), every `can_execute` answers
false. -/
theorem claim_C9 (cb : CircuitBreaker) (h : cb.state = .opened) :
    cb.onSuccess.state = .opened ∧
    cb.onSuccess.failureCount = 0 ∧
    cb.onSuccess.lastFailureTime = none ∧
    ∀ (es : List BreakerEvent) (now : Int),
      ((applyEvents cb.onSuccess es).canExecute now).1 = false := by
  have hs : cb.onSuccess.state = .opened := by
    simp [CircuitBreaker.onSuccess, h]
  have hl : cb.onSuccess.lastFailureTime = none := by
    simp [CircuitBreaker.onSuccess, h]
  refine ⟨hs, by simp [CircuitBreaker.onSuccess, h], hl, ?_⟩
  intro es now
  obtain ⟨hs2, hl2⟩ := open_noLastFailure_invariant es cb.onSuccess hs hl
  simp [CircuitBreaker.canExecute, hs2, hl2]

/-- Witness for C9 at a concrete open breaker. -/
theorem claim_C9_witness :
    trippedBreaker.onSuccess.state = .opened ∧
    trippedBreaker.onSuccess.failureCount = 0 ∧
    trippedBreaker.onSuccess.lastFailureTime = none ∧
    ∀ (es : List BreakerEvent) (now : Int),
      ((applyEvents trippedBreaker.onSuccess es).canExecute now).1 = false :=
  claim_C9 trippedBreaker (by decide)

/-! ## Upstream key records and the Redis-backed store
(src/app/models/keys.py and src/app/services/key_manager.py)

The source stores one Redis hash `openrouter:<fingerprint>` per upstream
key with stringified fields, and reconstructs the typed
`OpenRouterKeyData` on every read; the embedding works directly over
records in that parsed shape.  The set `openrouter:active` is the list
`active`. -/

/-- Parsed upstream key record, `OpenRouterKeyData` in app/models/keys.py,
with the pydantic field defaults. -/
structure OpenRouterKeyData where
  keyHash : String
  addedAt : Int := 0
  isActive : Bool := true
  isHealthy : Bool := true
  failureCount : Int := 0
  lastUsed : Option Int := none
  rateLimitReset : Option Int := none
  usageCount : Int := 0
  lastError : Option String := none
  deriving DecidableEq

/-- `OpenRouterKeyData.is_rate_limited` in app/models/keys.py: the reset
time is set and `datetime.utcnow()` is still before it. -/
def OpenRouterKeyData.isRateLimited (k : OpenRouterKeyData) (now : Int) : Bool :=
  match k.rateLimitReset with
  | none => false
  | some reset => now < reset

/-- Lookup in an association list keyed by fingerprint, the embedding of
reading the Redis hash for one key. -/
def recLookup {α : Type} : List (String × α) → String → Option α
  | [], _ => none
  | (k, v) :: rest, key => if k = key then some v else recLookup rest key

/-- Replacement of the first binding of a fingerprint, the embedding of a
field-merging `hset` on an existing hash. -/
def recUpdate {α : Type} : List (String × α) → String → α → List (String × α)
  | [], _, _ => []
  | (k, v) :: rest, key, nv =>
    if k = key then (k, nv) :: rest else (k, v) :: recUpdate rest key nv

theorem recLookup_recUpdate_self {α : Type} (l : List (String × α))
    (key : String) (nv : α) (r : α) (h : recLookup l key = some r) :
    recLookup (recUpdate l key nv) key = some nv := by
  induction l with
  | nil => simp [recLookup] at h
  | cons p rest ih =>
    by_cases hk : p.1 = key
    · simp [recLookup, recUpdate, hk]
    · simp only [recLookup, recUpdate, hk, if_false] at h ⊢
      exact ih h

theorem recLookup_recUpdate_other {α : Type} (l : List (String × α))
    (key other : String) (nv : α) (h : other ≠ key) :
    recLookup (recUpdate l key nv) other = recLookup l other := by
  induction l with
  | nil => simp [recUpdate]
  | cons p rest ih =>
    obtain ⟨k, v⟩ := p
    by_cases hk : k = key
    · have hko : ¬(key = other) := fun he => h he.symm
      simp [recUpdate, hk, recLookup, hko]
    · simp only [recUpdate, hk, if_false, recLookup]
      by_cases ho : k = other <;> simp [ho, ih]

/-- Durable state touched by the upstream-key operations: the per-key
hash records and the membership of the set `openrouter:active`. -/
structure Store where
  records : List (String × OpenRouterKeyData)
  active : List String
  deriving DecidableEq

/-- `KeyManager.mark_key_unhealthy` in key_manager.py: on an existing
record it increments the failure counter, stores the error text
(`error_message or "Unknown error"`), writes the healthy flag as false
exactly when the new counter has reached 5, and when it has, removes the
fingerprint from `openrouter:active`.  A missing record is a no-op
(`if not key_data: return`). -/
def markKeyUnhealthy (st : Store) (keyHash : String)
    (errorMessage : Option String) : Store :=
  match recLookup st.records keyHash with
  | none => st
  | some r =>
    let failureCount := r.failureCount + 1
    let r' := { r with
        failureCount := failureCount
        lastError := some (match errorMessage with
          | some s => if s = "" then "Unknown error" else s
          | none => "Unknown error")
        isHealthy := if failureCount ≥ 5 then false else true }
    let st := { st with records := recUpdate st.records keyHash r' }
    if failureCount ≥ 5 then
      { st with active := st.active.filter (fun h => h ≠ keyHash) }
    else
      st

/-- `KeyManager.mark_key_rate_limited` in key_manager.py: stores the reset
time and healthy=false on the existing record; the fingerprint stays in
`openrouter:active`.  (On an absent fingerprint the source would create a
two-field hash; no claim needs that case.) -/
def markKeyRateLimited (st : Store) (keyHash : String) (resetTime : Int) :
    Store :=
  match recLookup st.records keyHash with
  | none => st
  | some r =>
    let r' := { r with rateLimitReset := some resetTime, isHealthy := false }
    { st with records := recUpdate st.records keyHash r' }

/-- `KeyManager.get_healthy_openrouter_keys` in key_manager.py: walk the
members of `openrouter:active`, load each record, and keep those with
`is_active and is_healthy and not is_rate_limited()`. -/
def getHealthyOpenrouterKeys (st : Store) (now : Int) :
    List OpenRouterKeyData :=
  (st.active.filterMap (fun kh => recLookup st.records kh)).filter
    (fun k => k.isActive && k.isHealthy && !(k.isRateLimited now))

/-- `KeyManager.get_openrouter_keys` in key_manager.py: scan every stored
`openrouter:<fingerprint>` hash and return all parsed records. -/
def getOpenrouterKeys (st : Store) : List OpenRouterKeyData :=
  st.records.map (fun p => p.2)

/-- C4: every `mark_key_unhealthy` on an existing upstream key bumps its
failure counter by exactly one, and whenever the resulting counter has
reached the disable threshold 5 the stored healthy flag is false and the
fingerprint is no longer in `openrouter:active`; consequently five
consecutive failure reports starting from a clean counter leave the key
outside `openrouter:active`. -/
theorem claim_C4 (st : Store) (keyHash : String) (err : Option String)
    (r : OpenRouterKeyData) (h : recLookup st.records keyHash = some r) :
    (∃ r', recLookup (markKeyUnhealthy st keyHash err).records keyHash = some r' ∧
      r'.failureCount = r.failureCount + 1 ∧
      (r.failureCount + 1 ≥ 5 →
        r'.isHealthy = false ∧
        keyHash ∉ (markKeyUnhealthy st keyHash err).active)) ∧
    (r.failureCount = 0 →
      keyHash ∉ (markKeyUnhealthy (markKeyUnhealthy (markKeyUnhealthy
        (markKeyUnhealthy (markKeyUnhealthy st keyHash err) keyHash err)
        keyHash err) keyHash err) keyHash err).active) := by
  have step : ∀ (s : Store) (q : OpenRouterKeyData),
      recLookup s.records keyHash = some q →
      ∃ q', recLookup (markKeyUnhealthy s keyHash err).records keyHash = some q' ∧
        q'.failureCount = q.failureCount + 1 ∧
        (q.failureCount + 1 ≥ 5 →
          q'.isHealthy = false ∧
          keyHash ∉ (markKeyUnhealthy s keyHash err).active) := by
    intro s q hq
    have hupd : recLookup (markKeyUnhealthy s keyHash err).records keyHash =
        some { q with
          failureCount := q.failureCount + 1
          lastError := some (match err with
            | some s => if s = "" then "Unknown error" else s
            | none => "Unknown error")
          isHealthy := if q.failureCount + 1 ≥ 5 then false else true } := by
      simp only [markKeyUnhealthy, hq]
      by_cases h5 : q.failureCount + 1 ≥ 5 <;>
        simp [h5, recLookup_recUpdate_self s.records keyHash _ q hq]
    refine ⟨_, hupd, rfl, ?_⟩
    intro h5
    refine ⟨by simp [h5], ?_⟩
    simp only [markKeyUnhealthy, hq, h5, if_true]
    simp [List.mem_filter]
  refine ⟨step st r h, ?_⟩
  intro h0
  obtain ⟨r1, h1, hc1, _⟩ := step st r h
  obtain ⟨r2, h2, hc2, _⟩ := step _ r1 h1
  obtain ⟨r3, h3, hc3, _⟩ := step _ r2 h2
  obtain ⟨r4, h4, hc4, _⟩ := step _ r3 h3
  obtain ⟨r5, h5, hc5, habs⟩ := step _ r4 h4
  exact (habs (by omega)).2

/-- A one-record store holding a fresh upstream key under fingerprint
`"k1"`, used by concrete witnesses below. -/
def storeW : Store :=
  { records := [("k1", { keyHash := "k1" })], active := ["k1"] }

/-- Witness for C4: five consecutive failure reports on the fresh key of
`storeW` remove `"k1"` from the active set. -/
theorem claim_C4_witness :
    (∃ r', recLookup (markKeyUnhealthy storeW "k1" (some "boom")).records "k1" = some r' ∧
      r'.failureCount = (0 : Int) + 1 ∧
      ((0 : Int) + 1 ≥ 5 →
        r'.isHealthy = false ∧
        "k1" ∉ (markKeyUnhealthy storeW "k1" (some "boom")).active)) ∧
    ((0 : Int) = 0 →
      "k1" ∉ (markKeyUnhealthy (markKeyUnhealthy (markKeyUnhealthy
        (markKeyUnhealthy (markKeyUnhealthy storeW "k1" (some "boom")) "k1" (some "boom"))
        "k1" (some "boom")) "k1" (some "boom")) "k1" (some "boom")).active) :=
  claim_C4 storeW "k1" (some "boom") { keyHash := "k1" } (by decide)

/-- Record stored by `mark_key_unhealthy` for an existing fingerprint:
counter bumped, error text normalised, healthy flag recomputed against the
threshold 5. -/
theorem markKeyUnhealthy_lookup (st : Store) (keyHash : String)
    (err : Option String) (r : OpenRouterKeyData)
    (h : recLookup st.records keyHash = some r) :
    recLookup (markKeyUnhealthy st keyHash err).records keyHash =
      some { r with
        failureCount := r.failureCount + 1
        lastError := some (match err with
          | some s => if s = "" then "Unknown error" else s
          | none => "Unknown error")
        isHealthy := if r.failureCount + 1 ≥ 5 then false else true } := by
  simp only [markKeyUnhealthy, h]
  by_cases h5 : r.failureCount + 1 ≥ 5 <;>
    simp [h5, recLookup_recUpdate_self st.records keyHash _ r h]

/-- C10: when the incremented counter stays below the threshold 5,
`mark_key_unhealthy` writes the healthy flag as true; in particular one
such failure report right after `mark_key_rate_limited` (which had set
healthy=false) flips the key back to healthy=true. -/
theorem claim_C10 (st : Store) (keyHash : String) (err : Option String)
    (resetTime : Int) (r : OpenRouterKeyData)
    (h : recLookup st.records keyHash = some r)
    (hlt : r.failureCount + 1 < 5) :
    (∃ r', recLookup (markKeyUnhealthy st keyHash err).records keyHash = some r' ∧
      r'.isHealthy = true ∧ r'.failureCount = r.failureCount + 1) ∧
    (∃ rRL, recLookup (markKeyRateLimited st keyHash resetTime).records keyHash =
        some rRL ∧ rRL.isHealthy = false ∧
      ∃ r'', recLookup (markKeyUnhealthy
          (markKeyRateLimited st keyHash resetTime) keyHash err).records keyHash =
        some r'' ∧ r''.isHealthy = true) := by
  have not5 : ¬(r.failureCount + 1 ≥ 5) := by omega
  constructor
  · exact ⟨_, markKeyUnhealthy_lookup st keyHash err r h, by simp [not5], rfl⟩
  · have hrl : recLookup (markKeyRateLimited st keyHash resetTime).records keyHash =
        some { r with rateLimitReset := some resetTime, isHealthy := false } := by
      simp only [markKeyRateLimited, h]
      exact recLookup_recUpdate_self st.records keyHash _ r h
    refine ⟨_, hrl, rfl, ?_⟩
    exact ⟨_, markKeyUnhealthy_lookup _ keyHash err _ hrl, by simp [not5]⟩

/-- Witness for C10 on the fresh key of `storeW`. -/
theorem claim_C10_witness :
    (∃ r', recLookup (markKeyUnhealthy storeW "k1" (some "oops")).records "k1" = some r' ∧
      r'.isHealthy = true ∧
      r'.failureCount = ({ keyHash := "k1" } : OpenRouterKeyData).failureCount + 1) ∧
    (∃ rRL, recLookup (markKeyRateLimited storeW "k1" 500).records "k1" = some rRL ∧
      rRL.isHealthy = false ∧
      ∃ r'', recLookup (markKeyUnhealthy
          (markKeyRateLimited storeW "k1" 500) "k1" (some "oops")).records "k1" =
        some r'' ∧ r''.isHealthy = true) :=
  claim_C10 storeW "k1" (some "oops") 500 { keyHash := "k1" } (by decide) (by decide)

/-- C7: every record returned by `get_healthy_openrouter_keys` has
is-active, is-healthy and is not rate-limited, where rate-limited means
exactly that the reset field is set and still in the future. -/
theorem claim_C7 (st : Store) (now : Int) (k : OpenRouterKeyData)
    (h : k ∈ getHealthyOpenrouterKeys st now) :
    k.isActive = true ∧ k.isHealthy = true ∧ k.isRateLimited now = false ∧
    (k.isRateLimited now = true ↔ ∃ t, k.rateLimitReset = some t ∧ now < t) := by
  have hmem := h
  simp only [getHealthyOpenrouterKeys, List.mem_filter, Bool.and_eq_true,
    Bool.not_eq_true'] at hmem
  obtain ⟨-, ⟨ha, hh⟩, hrl⟩ := hmem
  refine ⟨ha, hh, hrl, ?_, ?_⟩
  · intro hr
    rcases hreset : k.rateLimitReset with _ | t
    · simp [OpenRouterKeyData.isRateLimited, hreset] at hr
    · refine ⟨t, rfl, ?_⟩
      simp only [OpenRouterKeyData.isRateLimited, hreset, decide_eq_true_eq] at hr
      exact hr
  · rintro ⟨t, ht, hlt⟩
    simp [OpenRouterKeyData.isRateLimited, ht, hlt]

/-- Witness for C7: the fresh key of `storeW` is returned and satisfies
the eligibility conjunction. -/
theorem claim_C7_witness :
    ({ keyHash := "k1" } : OpenRouterKeyData).isActive = true ∧
    ({ keyHash := "k1" } : OpenRouterKeyData).isHealthy = true ∧
    ({ keyHash := "k1" } : OpenRouterKeyData).isRateLimited 0 = false ∧
    (({ keyHash := "k1" } : OpenRouterKeyData).isRateLimited 0 = true ↔
      ∃ t, ({ keyHash := "k1" } : OpenRouterKeyData).rateLimitReset = some t ∧ 0 < t) :=
  claim_C7 storeW 0 { keyHash := "k1" } (by decide)

/-! ## Background maintenance (`KeyRotator.cleanup_expired_rate_limits`,
src/app/services/rotation.py) -/

/-- Field mapping that `cleanup_expired_rate_limits` hands to the raw
`redis_client.hset`: the reset field is the Python literal `None`. -/
def cleanupUpdates : List (String × Option String) :=
  [("is_healthy", some "true"), ("rate_limit_reset", none),
   ("failure_count", some "0")]

/-- Models the redis-py command encoder applied to an `hset` mapping:
every value must be bytes, string, int or float, and a `None` value makes
the client raise `DataError` before anything is sent, so the whole call
writes nothing.  `none` here is that error outcome. -/
def encodeMapping (m : List (String × Option String)) :
    Option (List (String × String)) :=
  m.mapM (fun p => (p.2).map (fun v => (p.1, v)))

/-- The three cleanup field writes interpreted on the typed record (only
reachable if the mapping were encodable). -/
def applyCleanupFields (k : OpenRouterKeyData) : OpenRouterKeyData :=
  { k with isHealthy := true, rateLimitReset := none, failureCount := 0 }

/-- Membership-preserving `sadd` on the `openrouter:active` list. -/
def setAdd (l : List String) (x : String) : List String :=
  if x ∈ l then l else x :: l

/-- Loop of `cleanup_expired_rate_limits` over the snapshot returned by
`get_openrouter_keys`.  For every key whose reset time is set and past and
whose healthy flag is false, the source calls
`redis_client.hset(key, mapping=updates)` followed by `sadd`; the whole
loop sits inside a single try/except, so the `DataError` raised while
encoding the mapping aborts the loop with no further writes. -/
def cleanupGo (now : Int) : List OpenRouterKeyData → Store → Store
  | [], st => st
  | k :: rest, st =>
    if (match k.rateLimitReset with
        | some t => decide (t < now)
        | none => false) && !k.isHealthy then
      match encodeMapping cleanupUpdates with
      | none => st
      | some _fields =>
        let st' := match recLookup st.records k.keyHash with
          | some cur =>
            { st with records := recUpdate st.records k.keyHash (applyCleanupFields cur) }
          | none => st
        cleanupGo now rest { st' with active := setAdd st'.active k.keyHash }
    else
      cleanupGo now rest st

/-- One execution of the maintenance pass
(`cleanup_expired_rate_limits`). -/
def cleanupExpiredRateLimits (st : Store) (now : Int) : Store :=
  cleanupGo now (getOpenrouterKeys st) st

/-- As shipped, the maintenance pass never changes the store: the first
key meeting the reset condition makes the mapping encoder raise, and keys
not meeting it are skipped. -/
theorem cleanupGo_eq_id (now : Int) (l : List OpenRouterKeyData) (st : Store) :
    cleanupGo now l st = st := by
  induction l generalizing st with
  | nil => rfl
  | cons k rest ih =>
    have henc : encodeMapping cleanupUpdates = none := rfl
    by_cases hc : ((match k.rateLimitReset with
        | some t => decide (t < now)
        | none => false) && !k.isHealthy) = true
    · simp [cleanupGo, hc, henc]
    · simp [cleanupGo, hc, ih]

/-- A rate-limited, unhealthy key whose reset instant 10 is already past
at instant 100, the failing input for C6. -/
def keyC6 : OpenRouterKeyData :=
  { keyHash := "k1", isHealthy := false, failureCount := 5,
    rateLimitReset := some 10 }

/-- Store holding only `keyC6`, already dropped from `openrouter:active`. -/
def storeC6 : Store := { records := [("k1", keyC6)], active := [] }

/-- C6 fails on the code: `keyC6` meets the recovery condition (reset 10
lies before now = 100, healthy flag false), yet one execution of the
maintenance pass changes nothing — the record keeps healthy=false, the
failure counter stays 5, the fingerprint is not re-added to
`openrouter:active`, and the key remains ineligible; indeed the pass is
the identity on every store. -/
theorem claim_C6 :
    keyC6.rateLimitReset = some 10 ∧ (10 : Int) < 100 ∧ keyC6.isHealthy = false ∧
    cleanupExpiredRateLimits storeC6 100 = storeC6 ∧
    recLookup (cleanupExpiredRateLimits storeC6 100).records "k1" = some keyC6 ∧
    "k1" ∉ (cleanupExpiredRateLimits storeC6 100).active ∧
    getHealthyOpenrouterKeys (cleanupExpiredRateLimits storeC6 100) 100 = [] ∧
    ∀ (s : Store) (n : Int), cleanupExpiredRateLimits s n = s := by
  refine ⟨rfl, by norm_num, rfl, by decide, by decide, by decide, by decide, ?_⟩
  intro s n
  exact cleanupGo_eq_id n (getOpenrouterKeys s) s

/-! ## Health-based rotation strategy
(`KeyRotator._health_based_selection` and
`KeyRotator._calculate_health_score`, src/app/services/rotation.py) -/

/-- Python builtin `max` on two rationals (`max(a, b)` keeps `a` unless
`b` is strictly larger). -/
def pymax (a b : Rat) : Rat := if a < b then b else a

/-- Python builtin `min` on two rationals. -/
def pymin (a b : Rat) : Rat := if a ≤ b then a else b

/-- `KeyRotator._calculate_health_score` in rotation.py, with Python float
arithmetic embedded as exact rationals: start at 100, subtract 10 per
recorded failure, subtract 30 when the reset time is set and still in the
future, subtract 20 times the usage count normalised to 1000 and capped at
1, add 10 when the key was last used less than an hour ago, and finally
clamp at 0 from below (`return max(0, score)`). -/
def calculateHealthScore (k : OpenRouterKeyData) (now : Int) : Rat :=
  let score : Rat := 100
  let score := score - (k.failureCount : Rat) * 10
  let score := if (match k.rateLimitReset with
      | some t => decide (now < t)
      | none => false) then score - 30 else score
  let usageFactor : Rat := pymin 1 ((k.usageCount : Rat) / 1000)
  let score := score - usageFactor * 20
  let score := match k.lastUsed with
    | some t => if ((now - t : Int) : Rat) / 3600 < 1 then score + 10 else score
    | none => score
  pymax 0 score

/-- Loop of `KeyRotator._health_based_selection`: running best key and
best score, the latter starting at −1; a key replaces the best exactly
when its score is strictly greater. -/
def healthLoop (now : Int) : List OpenRouterKeyData →
    Option OpenRouterKeyData → Rat → Option OpenRouterKeyData × Rat
  | [], best, bestScore => (best, bestScore)
  | k :: rest, best, bestScore =>
    let score := calculateHealthScore k now
    if bestScore < score then healthLoop now rest (some k) score
    else healthLoop now rest best bestScore

/-- `KeyRotator._health_based_selection`: the loop above, then
`best_key or available_keys[0]`. -/
def healthBasedSelection (keys : List OpenRouterKeyData) (now : Int) :
    Option OpenRouterKeyData :=
  match (healthLoop now keys none (-1)).1 with
  | some k => some k
  | none => keys.head?

/-- Modelled from the spec wording of the health-based score, for
comparison with the implementation: `100 − 10·failures −
30·(rate-limited?) − 20·normalized-usage + 10·(used-within-last-hour?)`,
with no clamping. -/
def specHealthScore (k : OpenRouterKeyData) (now : Int) : Rat :=
  100 - 10 * (k.failureCount : Rat)
    - (if (match k.rateLimitReset with
        | some t => decide (now < t)
        | none => false) then 30 else 0)
    - 20 * pymin 1 ((k.usageCount : Rat) / 1000)
    + (if (match k.lastUsed with
        | some t => decide (((now - t : Int) : Rat) / 3600 < 1)
        | none => false) then 10 else 0)

theorem pymax_zero_nonneg (s : Rat) : 0 ≤ pymax 0 s := by
  unfold pymax
  split
  · linarith
  · exact le_refl 0

theorem calculateHealthScore_nonneg (k : OpenRouterKeyData) (now : Int) :
    0 ≤ calculateHealthScore k now := by
  simp only [calculateHealthScore]
  exact pymax_zero_nonneg _

/-- The selection loop either keeps the incoming best (when nothing beats
its score) or returns the first key of the list realising a score that
strictly exceeds the incoming one and every earlier score, and that no
later score exceeds. -/
theorem healthLoop_spec (now : Int) (l : List OpenRouterKeyData)
    (best : Option OpenRouterKeyData) (bs : Rat) :
    (healthLoop now l best bs = (best, bs) ∧
      ∀ k ∈ l, calculateHealthScore k now ≤ bs) ∨
    (∃ l1 k l2, l = l1 ++ k :: l2 ∧
      healthLoop now l best bs = (some k, calculateHealthScore k now) ∧
      bs < calculateHealthScore k now ∧
      (∀ k' ∈ l1, calculateHealthScore k' now < calculateHealthScore k now) ∧
      (∀ k' ∈ l2, calculateHealthScore k' now ≤ calculateHealthScore k now)) := by
  induction l generalizing best bs with
  | nil =>
    left
    exact ⟨rfl, by simp⟩
  | cons k rest ih =>
    by_cases hlt : bs < calculateHealthScore k now
    · rcases ih (some k) (calculateHealthScore k now) with
        ⟨heq, hall⟩ | ⟨l1, kk, l2, hsplit, heq, hgt, hl1, hl2⟩
      · right
        refine ⟨[], k, rest, by simp, ?_, hlt, by simp, hall⟩
        simp [healthLoop, hlt, heq]
      · right
        refine ⟨k :: l1, kk, l2, by simp [hsplit], ?_, lt_trans hlt hgt, ?_, hl2⟩
        · simp [healthLoop, hlt, heq]
        · intro k' hk'
          rcases List.mem_cons.mp hk' with h1 | h1
          · exact h1 ▸ hgt
          · exact hl1 k' h1
    · rcases ih best bs with
        ⟨heq, hall⟩ | ⟨l1, kk, l2, hsplit, heq, hgt, hl1, hl2⟩
      · left
        refine ⟨by simp [healthLoop, hlt, heq], ?_⟩
        intro k' hk'
        rcases List.mem_cons.mp hk' with h1 | h1
        · exact h1 ▸ le_of_not_lt hlt
        · exact hall k' h1
      · right
        refine ⟨k :: l1, kk, l2, by simp [hsplit], ?_, hgt, ?_, hl2⟩
        · simp [healthLoop, hlt, heq]
        · intro k' hk'
          rcases List.mem_cons.mp hk' with h1 | h1
          · exact h1 ▸ lt_of_le_of_lt (le_of_not_lt hlt) hgt
          · exact hl1 k' h1

/-- Two keys whose raw spec scores are both negative: 13 recorded failures
give −30, 11 give −10; the implementation clamps both to 0 and keeps the
first. -/
def keyA : OpenRouterKeyData := { keyHash := "a", failureCount := 13 }

/-- Companion key for the C8 counterexample. -/
def keyB : OpenRouterKeyData := { keyHash := "b", failureCount := 11 }

/-- C8 as stated fails: on `[keyA, keyB]` the code returns `keyA`, yet
under the spec formula (without the clamp) `keyB` scores strictly higher,
so the unique maximiser of the claimed score is not the returned key. -/
theorem claim_C8_counterexample :
    healthBasedSelection [keyA, keyB] 0 = some keyA ∧
    specHealthScore keyA 0 < specHealthScore keyB 0 ∧
    keyA ≠ keyB := by
  have hA : calculateHealthScore keyA 0 = 0 := by
    norm_num [calculateHealthScore, keyA, pymin, pymax]
  have hB : calculateHealthScore keyB 0 = 0 := by
    norm_num [calculateHealthScore, keyB, pymin, pymax]
  refine ⟨?_, ?_, by decide⟩
  · norm_num [healthBasedSelection, healthLoop, hA, hB]
  · norm_num [specHealthScore, keyA, keyB, pymin]

/-- C8 amended: the health-based strategy returns the first key of the
list attaining the maximal implemented score, which is the spec formula
clamped below at 0 (`max(0, ...)`); earlier keys score strictly less and
no key scores more. -/
theorem claim_C8_amended (keys : List OpenRouterKeyData) (now : Int)
    (hne : keys ≠ []) :
    ∃ l1 k l2, keys = l1 ++ k :: l2 ∧
      healthBasedSelection keys now = some k ∧
      (∀ k' ∈ l1, calculateHealthScore k' now < calculateHealthScore k now) ∧
      (∀ k' ∈ keys, calculateHealthScore k' now ≤ calculateHealthScore k now) := by
  rcases healthLoop_spec now keys none (-1) with
    ⟨heq, hall⟩ | ⟨l1, k, l2, hsplit, heq, hgt, hl1, hl2⟩
  · rcases keys with _ | ⟨k0, rest⟩
    · exact absurd rfl hne
    · exfalso
      have h0 := hall k0 (by simp)
      have h1 := calculateHealthScore_nonneg k0 now
      linarith
  · refine ⟨l1, k, l2, hsplit, ?_, hl1, ?_⟩
    · simp [healthBasedSelection, heq]
    · intro k' hk'
      rw [hsplit] at hk'
      rcases List.mem_append.mp hk' with h1 | h1
      · exact le_of_lt (hl1 k' h1)
      · rcases List.mem_cons.mp h1 with h2 | h2
        · exact h2 ▸ le_refl _
        · exact hl2 k' h2

/-- Witness for the amended C8 on the concrete list `[keyA, keyB]`. -/
theorem claim_C8_witness :
    ∃ l1 k l2, [keyA, keyB] = l1 ++ k :: l2 ∧
      healthBasedSelection [keyA, keyB] 0 = some k ∧
      (∀ k' ∈ l1, calculateHealthScore k' 0 < calculateHealthScore k 0) ∧
      (∀ k' ∈ [keyA, keyB], calculateHealthScore k' 0 ≤ calculateHealthScore k 0) :=
  claim_C8_amended [keyA, keyB] 0 (by decide)

/-! ## Client auth gate (src/app/middleware/auth.py,
class ClientAuthMiddleware) -/

/-- Parsed client key record, `ClientKeyData` in app/models/keys.py, with
the pydantic field defaults. -/
structure ClientKeyData where
  userId : String
  createdAt : Int := 0
  lastUsed : Option Int := none
  isActive : Bool := true
  permissions : List String := []
  usageCount : Int := 0
  rateLimit : Int := 1000
  deriving DecidableEq

/-- `ClientAuthMiddleware._get_current_usage` in auth.py:
`min(client_data.usage_count, client_data.rate_limit - 1)`. -/
def getCurrentUsage (c : ClientKeyData) : Int :=
  min c.usageCount (c.rateLimit - 1)

/-- `ClientAuthMiddleware._check_rate_limit` in auth.py:
`current_usage < client_data.rate_limit`. -/
def checkRateLimit (c : ClientKeyData) : Bool :=
  getCurrentUsage c < c.rateLimit

/-- Value that `ClientAuthMiddleware.dispatch` writes into the
`X-RateLimit-Remaining` response header:
`max(0, rate_limit - current_usage)`. -/
def rateLimitRemaining (c : ClientKeyData) : Int :=
  max 0 (c.rateLimit - getCurrentUsage c)

/-- Outcome of the auth gate for a request whose client key has already
validated. -/
inductive AuthOutcome where
  | forwarded (limitHeader remainingHeader : Int)
  | rejected429
  deriving DecidableEq

/-- Rate-limit stage of `ClientAuthMiddleware.dispatch` for a validated
client key: reject with 429 when `_check_rate_limit` answers false,
otherwise forward the request and stamp `X-RateLimit-Limit` and
`X-RateLimit-Remaining` on the response. -/
def authGateDispatch (c : ClientKeyData) : AuthOutcome :=
  if checkRateLimit c then
    .forwarded c.rateLimit (rateLimitRemaining c)
  else
    .rejected429

/-- Per-minute quota of `RateLimitMiddleware._check_redis_rate_limit` in
auth.py, `max(1, client_data.rate_limit // 60)`.  That middleware is never
installed by app/main.py, so this formula is dead on the request path. -/
def perMinuteLimit (rateLimit : Int) : Int :=
  max 1 (rateLimit / 60)

/-- The client key of scenario S5 at its second request of the minute:
rate limit 60 per hour, usage counter already incremented twice by
`validate_client_key`. -/
def clientC5 : ClientKeyData := { userId := "u", rateLimit := 60, usageCount := 2 }

/-- C5 as stated fails: the second same-minute request on a limit-60 key
is forwarded, not rejected with 429, and its `X-RateLimit-Remaining`
header reads 58, not 0. -/
theorem claim_C5_counterexample :
    authGateDispatch clientC5 = .forwarded 60 58 ∧
    authGateDispatch clientC5 ≠ .rejected429 ∧
    rateLimitRemaining clientC5 ≠ 0 := by
  refine ⟨?_, ?_, ?_⟩ <;> decide

/-- C5 amended: `_check_rate_limit` compares
`min(usage_count, rate_limit − 1)` against `rate_limit`, which always
holds, so the auth gate forwards every validated request — no request is
rejected 429 here — and the `X-RateLimit-Remaining` header
`max(0, rate_limit − min(usage_count, rate_limit − 1))` is at least 1,
never 0. -/
theorem claim_C5_amended (c : ClientKeyData) :
    checkRateLimit c = true ∧
    authGateDispatch c = .forwarded c.rateLimit (rateLimitRemaining c) ∧
    1 ≤ rateLimitRemaining c := by
  have hmin := min_le_right c.usageCount (c.rateLimit - 1)
  have h1 : getCurrentUsage c < c.rateLimit := by
    unfold getCurrentUsage
    omega
  have hck : checkRateLimit c = true := by
    simp [checkRateLimit, h1]
  refine ⟨hck, by simp [authGateDispatch, hck], ?_⟩
  have h2 : 1 ≤ c.rateLimit - getCurrentUsage c := by
    unfold getCurrentUsage
    omega
  calc (1 : Int) ≤ c.rateLimit - getCurrentUsage c := h2
    _ ≤ rateLimitRemaining c := le_max_right 0 _

/-! ## Proxy retry loop (src/app/services/proxy.py,
`ProxyService.proxy_request`) -/

/-- Reports that `proxy_request` sends to the rotation manager about the
selected key. -/
inductive AttemptReport where
  | success
  | failureRateLimit
  | failureOther
  deriving DecidableEq

/-- What the status-classification block of `proxy_request` does with one
upstream response: the reports it issues, whether the loop continues to
the next attempt, and the status passed through to the client when it
does not. -/
structure ClassifiedResponse where
  reports : List AttemptReport
  retries : Bool
  passedStatus : Option Int
  deriving DecidableEq

/-- Status classification of `proxy_request` (proxy.py lines 87-108):
429 reports a rate-limit failure and retries; 5xx reports a failure and
retries; any other status at least 400 is passed through with no report
at all (`# Client errors should be passed through without marking key as
failed`); anything below 400 reports success and is streamed through. -/
def classifyResponse (status : Int) : ClassifiedResponse :=
  if status = 429 then ⟨[.failureRateLimit], true, none⟩
  else if status ≥ 500 then ⟨[.failureOther], true, none⟩
  else if status ≥ 400 then ⟨[], false, some status⟩
  else ⟨[.success], false, some status⟩

/-- C2 as stated fails: on a 400 response the code issues no report at
all — neither success nor failure — while still passing the response
through without retrying. -/
theorem claim_C2_counterexample :
    (classifyResponse 400).reports = [] ∧
    (classifyResponse 400).reports ≠ [AttemptReport.success] ∧
    (classifyResponse 400).retries = false ∧
    (classifyResponse 400).passedStatus = some 400 := by
  refine ⟨?_, ?_, ?_, ?_⟩ <;> decide

/-- C2 amended: 429 reports exactly one rate-limit failure and retries;
5xx reports exactly one failure and retries; a 4xx other than 429 is
passed through unchanged with no retry and no report of either kind;
2xx/3xx (any status below 400) reports exactly one success and is
streamed through; no response ever produces more than one report. -/
theorem claim_C2_amended (s : Int) :
    (s = 429 → classifyResponse s =
      ⟨[AttemptReport.failureRateLimit], true, none⟩) ∧
    (s ≥ 500 → classifyResponse s = ⟨[AttemptReport.failureOther], true, none⟩) ∧
    (400 ≤ s → s < 500 → s ≠ 429 → classifyResponse s = ⟨[], false, some s⟩) ∧
    (s < 400 → classifyResponse s = ⟨[AttemptReport.success], false, some s⟩) ∧
    (classifyResponse s).reports.length ≤ 1 := by
  unfold classifyResponse
  refine ⟨?_, ?_, ?_, ?_, ?_⟩
  · intro h
    simp [h]
  · intro h
    have h429 : ¬(s = 429) := by omega
    simp [h429, h]
  · intro h4 h5 h429
    have hge5 : ¬(s ≥ 500) := by omega
    simp [h429, hge5, h4]
  · intro h
    have h429 : ¬(s = 429) := by omega
    have hge5 : ¬(s ≥ 500) := by omega
    have hge4 : ¬(s ≥ 400) := by omega
    simp [h429, hge5, hge4]
  · split
    · simp
    · split
      · simp
      · split <;> simp

/-- Witness for the amended C2 at the concrete status 502. -/
theorem claim_C2_witness :
    classifyResponse 502 = ⟨[AttemptReport.failureOther], true, none⟩ :=
  (claim_C2_amended 502).2.1 (by decide)

/-- What the upstream does for one attempt: an HTTP response with a given
status, or one of the transport exceptions `proxy_request` catches. -/
inductive UpstreamBehavior where
  | status (code : Int)
  | timeoutError
  | connectError
  | otherError
  deriving DecidableEq

/-- Environment of one attempt: the fingerprint `select_key` returns (or
`None` when the pool is empty) and the upstream behaviour. -/
structure AttemptEnv where
  selection : Option String
  upstream : UpstreamBehavior
  deriving DecidableEq

/-- Result `proxy_request` hands back: a streamed upstream response, or a
raised `HTTPException` with the given status. -/
inductive ProxyResult where
  | streamed (status : Int)
  | httpError (status : Int)
  deriving DecidableEq

/-- Observable effects accumulated across the attempts of one
`proxy_request` call, plus the Python local `key_hash`, which survives
from one loop iteration to the next. -/
structure ProxyState where
  selections : Nat := 0
  upstreamCalls : Nat := 0
  reports : List (String × AttemptReport) := []
  keyHashVar : Option String := none
  deriving DecidableEq

/-- One iteration of the retry loop in `ProxyService.proxy_request`.  The
503 `HTTPException` raised when `select_key` returns `None` is raised
inside the same `try` whose last handler is `except Exception`, so it is
caught there: `last_exception` is recorded, a failure is reported against
`key_hash` whenever that local is still bound from an earlier iteration
(`if 'key_hash' in locals()`), and the loop moves on to the next attempt.
`_get_api_key_securely` is the placeholder that always fabricates a key
from the fingerprint, so its `None` branch is unreachable.  Transport
exceptions report a failure against the selected key and continue; an
HTTP response goes through the status classification. -/
def runAttempt (st : ProxyState) (env : AttemptEnv) :
    ProxyState × Option ProxyResult :=
  let st := { st with selections := st.selections + 1 }
  match env.selection with
  | none =>
    let st := match st.keyHashVar with
      | some kh =>
        { st with reports := st.reports ++ [(kh, AttemptReport.failureOther)] }
      | none => st
    (st, none)
  | some kh =>
    let st := { st with keyHashVar := some kh }
    match env.upstream with
    | .timeoutError | .connectError | .otherError =>
      ({ st with
          upstreamCalls := st.upstreamCalls + 1
          reports := st.reports ++ [(kh, AttemptReport.failureOther)] }, none)
    | .status code =>
      let st := { st with upstreamCalls := st.upstreamCalls + 1 }
      let c := classifyResponse code
      let st := { st with reports := st.reports ++ c.reports.map (fun r => (kh, r)) }
      if c.retries then (st, none) else (st, some (.streamed code))

/-- The `for attempt in range(max_retries)` loop of `proxy_request`;
when the fuel (remaining attempts) runs out the function raises
`HTTPException(502, "Failed to proxy request after 3 attempts")`. -/
def proxyLoop (env : Nat → AttemptEnv) : Nat → Nat → ProxyState →
    ProxyState × ProxyResult
  | _, 0, st => (st, .httpError 502)
  | attempt, fuel + 1, st =>
    match runAttempt st (env attempt) with
    | (st', some r) => (st', r)
    | (st', none) => proxyLoop env (attempt + 1) fuel st'

/-- `ProxyService.proxy_request` with `max_retries = 3`. -/
def proxyRequest (env : Nat → AttemptEnv) : ProxyState × ProxyResult :=
  proxyLoop env 0 3 {}

/-- Environment in which the key pool is empty for the whole request:
every `select_key` call returns `None`. -/
def noKeyEnv : Nat → AttemptEnv :=
  fun _ => { selection := none, upstream := .status 200 }

/-- Environment in which attempt 0 selects key `"k1"` and gets a 500, and
the pool is empty from attempt 1 on. -/
def staleKeyEnv : Nat → AttemptEnv :=
  fun i => if i = 0 then { selection := some "k1", upstream := .status 500 }
           else { selection := none, upstream := .status 200 }

/-- C1 fails on the code: with an empty pool the 503 raised on the first
attempt is swallowed by the blanket `except Exception`, the loop runs all
three selection attempts and the client gets 502, not 503 (the repo's own
test expects the 503 to propagate); no upstream call is made, and on a
fresh request no failure is reported — but when a previous attempt has
left `key_hash` bound, each subsequent empty-pool attempt also reports a
spurious failure against that stale key. -/
theorem claim_C1 :
    proxyRequest noKeyEnv =
      ({ selections := 3, upstreamCalls := 0, reports := [],
         keyHashVar := none }, ProxyResult.httpError 502) ∧
    (proxyRequest noKeyEnv).2 ≠ ProxyResult.httpError 503 ∧
    (proxyRequest noKeyEnv).1.selections = 3 ∧
    (proxyRequest staleKeyEnv).1.reports =
      [("k1", AttemptReport.failureOther), ("k1", AttemptReport.failureOther),
       ("k1", AttemptReport.failureOther)] ∧
    (proxyRequest staleKeyEnv).1.upstreamCalls = 1 ∧
    (proxyRequest staleKeyEnv).2 = ProxyResult.httpError 502 := by
  refine ⟨?_, ?_, ?_, ?_, ?_, ?_⟩ <;> decide

end ORMW
